import Mathlib

/-
  Verification development for the Voltura Captcha server.

  Shallow embedding of the challenge lifecycle engine:
  - puzzle generation (src/captcha.js): `generateCaptcha`, `generateBasicCaptcha`,
    `randomInRange`, `applyDistortion`; the JavaScript `Math.random()` draws are
    modelled as an explicit tape of naturals (one entry per draw, reduced modulo
    the number of outcomes, exactly the image of `Math.floor(Math.random()*n)`),
    and the per-character distortion coin flips as a tape of booleans.
  - the HTTP-layer core (server file): rate limiter `advancedRateLimitCheck`,
    bot scoring `computeBotScore`, `determineDifficulty`, the challenge store
    with `createChallenge` / `validateCaptcha` / `discardChallenge` /
    `sweepExpired`, and the fallback difficulty selection `fallbackDifficulty`.
  The JavaScript `Map` is modelled as an association list with unique keys;
  `Map.set` replaces in place or appends, `Map.delete` filters the key out.
-/

/-- A JSON value as it can appear in a request body field: a string, a number
(all numbers relevant here are integers), or `null`.  An absent field is
modelled as `Option` `none` at the use site. -/
inductive JsValue where
  | vStr (s : String)
  | vNum (n : Int)
  | vNull
deriving DecidableEq, Repr

/-- `containsAt needle hay` is true when `needle` occurs in `hay` as a
contiguous run, at any position. -/
def containsAt (needle : List Char) : List Char → Bool
  | [] => needle.isEmpty
  | c :: rest => needle.isPrefixOf (c :: rest) || containsAt needle rest

/-- Plain (case-sensitive) substring test, modelling JavaScript
`haystack.includes(needle)`. -/
def containsSub (hay needle : String) : Bool :=
  containsAt needle.data hay.data

/-- ASCII lowercase of a character (all pattern strings involved are ASCII). -/
def lowerChar (c : Char) : Char :=
  if 'A' ≤ c ∧ c ≤ 'Z' then Char.ofNat (c.toNat + 32) else c

/-- ASCII lowercase of a string, modelling `toLowerCase` on the ASCII inputs
used by the matching below. -/
def lowerString (s : String) : String :=
  ⟨s.data.map lowerChar⟩

/-- Case-insensitive substring test, modelling a case-insensitive regular
expression `/pat/i.test(haystack)` for a pattern that is a literal string. -/
def containsCI (hay needle : String) : Bool :=
  containsSub (lowerString hay) (lowerString needle)

/-- Numeric value of a list of decimal digit characters. -/
def digitsVal (ds : List Char) : Nat :=
  ds.foldl (fun acc c => acc * 10 + (c.toNat - '0'.toNat)) 0

/-- Model of JavaScript `parseInt(s)` on a string for the decimal case:
skip leading whitespace, read an optional sign, then the longest run of
decimal digits; `NaN` (no digits) is `none`.  (The hexadecimal `0x` prefix
of `parseInt` is not modelled; no input relevant here uses it.) -/
def parseIntStr (s : String) : Option Int :=
  let t := s.data.dropWhile (fun c => c.isWhitespace)
  let signAndRest : Int × List Char :=
    match t with
    | '-' :: r => (-1, r)
    | '+' :: r => (1, r)
    | r => (1, r)
  let ds := signAndRest.2.takeWhile (fun c => c.isDigit)
  if ds.isEmpty then none
  else some (signAndRest.1 * (digitsVal ds : Int))

/-- Model of JavaScript `parseInt(x)` on an arbitrary value: a number is first
converted to its decimal string, which parses back to itself for the integers
used here; `null` stringifies to `"null"` and parses to `NaN`. -/
def parseIntJS : JsValue → Option Int
  | .vStr s => parseIntStr s
  | .vNum n => some n
  | .vNull => none

/-! ## Configuration (the `config` object of the server file) -/

structure LimitConfig where
  windowMs : Int
  maxReq : Nat
deriving DecidableEq, Repr

structure RateLimitSettings where
  captchaGeneration : LimitConfig
  captchaValidation : LimitConfig
  general : LimitConfig
deriving DecidableEq, Repr

structure CaptchaSettings where
  expiration : Int
  maxAttempts : Nat
  cleanupInterval : Int
deriving DecidableEq, Repr

structure SecuritySettings where
  maxAnswerLength : Nat
  allowedDifficulties : List String
deriving DecidableEq, Repr

structure ServerConfig where
  rateLimit : RateLimitSettings
  captcha : CaptchaSettings
  security : SecuritySettings
deriving DecidableEq, Repr

/-- The literal `config` object of the server file. -/
def config : ServerConfig :=
  { rateLimit :=
      { captchaGeneration := ⟨15 * 60 * 1000, 100⟩
        captchaValidation := ⟨15 * 60 * 1000, 200⟩
        general := ⟨15 * 60 * 1000, 500⟩ }
    captcha := ⟨10 * 60 * 1000, 3, 5 * 60 * 1000⟩
    security := ⟨10, ["easy", "medium", "hard", "extreme"]⟩ }

/-! ## JavaScript `Map` modelled as an association list -/

/-- `Map.get`: value at the (unique) occurrence of the key, if present. -/
def mapGet {α : Type} : List (String × α) → String → Option α
  | [], _ => none
  | (k', v) :: rest, k => if k' = k then some v else mapGet rest k

/-- `Map.has`. -/
def mapHas {α : Type} (s : List (String × α)) (k : String) : Bool :=
  (mapGet s k).isSome

/-- `Map.set`: replace the value in place if the key is present, otherwise
append the new entry at the end (JavaScript insertion-order semantics). -/
def mapSet {α : Type} : List (String × α) → String → α → List (String × α)
  | [], k, v => [(k, v)]
  | (k', v') :: rest, k, v =>
      if k' = k then (k, v) :: rest else (k', v') :: mapSet rest k v

/-- `Map.delete`: remove the entry with the key. -/
def mapDelete {α : Type} (s : List (String × α)) (k : String) : List (String × α) :=
  s.filter (fun p => p.1 ≠ k)

/-- The keys of the association list. -/
def mapKeys {α : Type} (s : List (String × α)) : List String :=
  s.map Prod.fst

/-! ## Risk scorer and difficulty selection (server file) -/

/-- The automation-indicating user-agent patterns of the bot-detection
middleware; each is a literal (so the case-insensitive regex test is a
case-insensitive substring test). -/
def botPatterns : List String :=
  ["bot", "crawl", "spider", "scrape", "python", "curl", "wget", "phantom",
   "headless", "chrome-lighthouse"]

/-- The additive bot score accumulated by the bot-detection middleware at the
time `determineDifficulty` runs: the missing-user-agent penalty, one penalty
of 5 per matching pattern, and the suspicious-accept penalty.  (The
fast-response penalty is added only after the response has been sent, so it is
never part of the score seen by `determineDifficulty`.) -/
def computeBotScore (userAgent accept : String) : Nat :=
  (if userAgent = "" then 10 else 0)
  + 5 * (botPatterns.filter (fun p => containsCI userAgent p)).length
  + (if ¬(containsSub accept "application/json" ∨ containsSub accept "text/html")
     then 3 else 0)

/-- `/Mobi|Android|iPhone|iPad/i.test(userAgent)`. -/
def isMobileUA (userAgent : String) : Bool :=
  containsCI userAgent "Mobi" || containsCI userAgent "Android" ||
  containsCI userAgent "iPhone" || containsCI userAgent "iPad"

/-- `/Tablet|iPad/i.test(userAgent)`. -/
def isTabletUA (userAgent : String) : Bool :=
  containsCI userAgent "Tablet" || containsCI userAgent "iPad"

/-- Truthiness-plus-allowlist test of the requested difficulty:
`requestedDifficulty && config.security.allowedDifficulties.includes(...)`. -/
def isValidRequested (requestedDifficulty : Option String) : Bool :=
  match requestedDifficulty with
  | some d => d ≠ "" && config.security.allowedDifficulties.contains d
  | none => false

/-- `determineDifficulty` of the server file.  The request is represented by
its user-agent header and the accumulated bot score. -/
def determineDifficulty (requestedDifficulty : Option String)
    (userAgent : String) (botScore : Nat) : String :=
  if isValidRequested requestedDifficulty then requestedDifficulty.getD "medium"
  else if isMobileUA userAgent then "easy"
  else if isTabletUA userAgent then "medium"
  else if botScore > 15 then "hard"
  else if botScore > 25 then "extreme"
  else "medium"

/-- The difficulty chosen by the `/api/captcha/fallback` handler from the
`previousDifficulty` query parameter (an absent parameter is `none`). -/
def fallbackDifficulty (previousDifficulty : Option String) : String :=
  let difficulties := ["extreme", "hard", "medium", "easy"]
  match previousDifficulty with
  | some p =>
      if p ≠ "" && difficulties.contains p then
        difficulties.getD (min (difficulties.findIdx (· == p) + 1) 3) "easy"
      else "easy"
  | none => "easy"

/-! ## Puzzle generator (src/captcha.js)

`Math.random()` draws are modelled by a tape of naturals: the `i`-th draw of a
uniform choice among `n` outcomes is `tapeGet tape i % n`, the exact image of
`Math.floor(Math.random() * n)`.  Draws are consumed in source order: position
0 is the puzzle-kind choice, positions 1.. are the draws inside the chosen
branch, in the order the source makes them. -/

/-- Read position `i` of the random tape (an exhausted tape reads 0). -/
def tapeGet (tape : List Nat) (i : Nat) : Nat :=
  tape.getD i 0

/-- `randomInRange([min, max])` where `r` is the raw draw
`Math.floor(Math.random() * (max - min + 1))` reduced to its range. -/
def randomInRange (range : Nat × Nat) (r : Nat) : Nat :=
  range.1 + r % (range.2 - range.1 + 1)

structure DiffConfig where
  types : List String
  range : Nat × Nat
deriving DecidableEq, Repr

/-- The `difficulties` table of `generateCaptcha`, including the
`difficulties[difficulty] || difficulties.medium` fallback to medium. -/
def difficultyTable (difficulty : String) : DiffConfig :=
  if difficulty = "easy" then ⟨["addition", "subtraction"], (1, 10)⟩
  else if difficulty = "medium" then
    ⟨["addition", "subtraction", "multiplication", "numberToText"], (1, 15)⟩
  else if difficulty = "hard" then
    ⟨["multiplication", "simpleAlgebra", "mixedOperations", "wordProblem"], (1, 20)⟩
  else if difficulty = "extreme" then
    ⟨["complexAlgebra", "multipleOperations", "logicPuzzle"], (5, 30)⟩
  else ⟨["addition", "subtraction", "multiplication", "numberToText"], (1, 15)⟩

/-- The English number words of the `numberToText` case. -/
def numberWords : List String :=
  ["zero", "one", "two", "three", "four", "five", "six", "seven", "eight",
   "nine", "ten"]

/-- The word looked up for the `numberToText` question (out-of-range lookups
never occur; the default is the empty string). -/
def numberWordAt (n : Nat) : String :=
  numberWords.getD n ""

/-- The leetspeak character substitutions of `applyDistortion`. -/
def leetChar (c : Char) : Char :=
  if c.toLower = 'a' then '4'
  else if c.toLower = 'e' then '3'
  else if c.toLower = 'i' then '1'
  else if c.toLower = 'o' then '0'
  else if c.toLower = 's' then '5'
  else c

/-- Whether the leetspeak regex `/[aeios]/gi` matches the character. -/
def isLeetTarget (c : Char) : Bool :=
  c.toLower = 'a' || c.toLower = 'e' || c.toLower = 'i' || c.toLower = 'o' ||
  c.toLower = 's'

/-- The leetspeak pass: every `[aeios]` occurrence consumes one coin flip
(`Math.random() < 0.3`) and is substituted when the flip is true.  Returns the
transformed text and the unconsumed remainder of the flip tape. -/
def leetPass : List Char → List Bool → List Char × List Bool
  | [], bs => ([], bs)
  | c :: cs, bs =>
      if isLeetTarget c then
        let rest := leetPass cs bs.tail
        ((if bs.headD false then leetChar c else c) :: rest.1, rest.2)
      else
        let rest := leetPass cs bs
        (c :: rest.1, rest.2)

/-- The zero-width space appended by the `unicode` distortion. -/
def zeroWidthSpace : Char := Char.ofNat 0x200B

/-- The unicode pass: every character consumes one coin flip
(`Math.random() < 0.1`) and is suffixed with a zero-width space when the flip
is true. -/
def unicodePass : List Char → List Bool → List Char × List Bool
  | [], bs => ([], bs)
  | c :: cs, bs =>
      let rest := unicodePass cs bs.tail
      ((if bs.headD false then [c, zeroWidthSpace] else [c]) ++ rest.1, rest.2)

/-- The per-difficulty distortion profile of `applyDistortion` (including the
`|| distortions.medium` fallback). -/
def distortionProfile (difficulty : String) : List String :=
  if difficulty = "easy" then ["spaces"]
  else if difficulty = "medium" then ["spaces", "caps"]
  else if difficulty = "hard" then ["spaces", "caps", "punctuation", "leetspeak"]
  else if difficulty = "extreme" then
    ["spaces", "caps", "punctuation", "leetspeak", "unicode"]
  else ["spaces", "caps"]

/-- One step of the `reduce` over the selected distortions: only `leetspeak`
and `unicode` have cases; every other tag hits the `default` branch and leaves
the text unchanged. -/
def applyOneDistortion (acc : List Char × List Bool) (tag : String) :
    List Char × List Bool :=
  if tag = "leetspeak" then leetPass acc.1 acc.2
  else if tag = "unicode" then unicodePass acc.1 acc.2
  else acc

/-- `applyDistortion(text, difficulty)`, with the coin flips of the random
passes supplied by the boolean tape. -/
def applyDistortion (text : String) (difficulty : String) (btape : List Bool) :
    String :=
  ⟨((distortionProfile difficulty).foldl applyOneDistortion (text.data, btape)).1⟩

/-- The record returned by `generateCaptcha`.  The basic-captcha path returns
an object with only `question` and `answer`, so destructuring it yields
`undefined` for `type` and `difficulty`: both are modelled as `Option`. -/
structure CaptchaResult where
  question : String
  answer : Int
  qtype : Option String
  difficulty : Option String
deriving DecidableEq, Repr

/-- `generateBasicCaptcha(type, range)`.  The source draws `a` then `b`
unconditionally (tape positions 1 and 2; position 0 was the kind choice in
the caller), and the `numberToText` case draws once more (position 3).
Unrecognized kinds fall through to an addition puzzle.  No distortion is
applied on this path and no `type`/`difficulty` fields are returned. -/
def generateBasicCaptcha (ptype : String) (range : Nat × Nat)
    (tape : List Nat) : CaptchaResult :=
  let a := randomInRange range (tapeGet tape 1)
  let b := randomInRange range (tapeGet tape 2)
  if ptype = "addition" then
    ⟨s!"What is {a} + {b}?", (a : Int) + b, none, none⟩
  else if ptype = "subtraction" then
    let x := max a b
    let y := min a b
    ⟨s!"What is {x} - {y}?", (x : Int) - y, none, none⟩
  else if ptype = "multiplication" then
    ⟨s!"What is {a} × {b}?", (a : Int) * b, none, none⟩
  else if ptype = "numberToText" then
    let num := randomInRange (0, 10) (tapeGet tape 3)
    ⟨s!"Type the number: \"{numberWordAt num}\"", (num : Int), none, none⟩
  else
    ⟨s!"What is {a} + {b}?", (a : Int) + b, none, none⟩

/-- The three word-problem templates (template text, answer function). -/
def wordProblemTemplates : List (String × (Nat → Nat → Int)) :=
  [("If you have {a} apples and buy {b} more, how many do you have?",
      fun a b => (a : Int) + b),
   ("A pizza has {a} slices. If you eat {b}, how many remain?",
      fun a b => (a : Int) - b),
   ("There are {a} cars with {b} wheels each. Total wheels?",
      fun a b => (a : Int) * b)]

/-- The two canned logic puzzles (question, precomputed answer). -/
def logicPuzzleBank : List (String × Int) :=
  [("What is the next number: 2, 4, 6, 8, ?", 10),
   ("If 3 cats catch 3 mice in 3 minutes, how many cats to catch 100 mice in 100 minutes?", 3)]

/-- `generateCaptcha(difficulty)`.  All answers returned by the four explicit
switch cases are integers, so the final `Math.round` is the identity; the
`complexAlgebra` division `(result - constant) / coeff` is exact by
construction and is modelled with natural division. -/
def generateCaptcha (difficulty : String) (tape : List Nat)
    (btape : List Bool) : CaptchaResult :=
  let cfg := difficultyTable difficulty
  let ptype := cfg.types.getD (tapeGet tape 0 % cfg.types.length) ""
  if ptype = "mixedOperations" then
    let op := ["+", "-", "*"].getD (tapeGet tape 1 % 3) "+"
    let num1 := randomInRange cfg.range (tapeGet tape 2)
    let num2 := randomInRange cfg.range (tapeGet tape 3)
    let answer : Int :=
      if op = "+" then (num1 : Int) + num2
      else if op = "-" then (num1 : Int) - num2
      else (num1 : Int) * num2
    ⟨applyDistortion s!"Calculate: {num1} {op} {num2}" difficulty btape,
      answer, some ptype, some difficulty⟩
  else if ptype = "wordProblem" then
    let idx := tapeGet tape 1 % 3
    let tmpl := wordProblemTemplates.getD idx ("", fun _ _ => 0)
    let pA := randomInRange (2, 10) (tapeGet tape 2)
    let pB := randomInRange (2, 10) (tapeGet tape 3)
    ⟨applyDistortion
        ((tmpl.1.replace "{a}" (toString pA)).replace "{b}" (toString pB))
        difficulty btape,
      tmpl.2 pA pB, some ptype, some difficulty⟩
  else if ptype = "complexAlgebra" then
    let coeff := randomInRange (2, 5) (tapeGet tape 1)
    let konst := randomInRange (1, 10) (tapeGet tape 2)
    let res := coeff * randomInRange (3, 8) (tapeGet tape 3) + konst
    ⟨applyDistortion s!"Solve for x: {coeff}x + {konst} = {res}" difficulty btape,
      ((res - konst) / coeff : Nat), some ptype, some difficulty⟩
  else if ptype = "logicPuzzle" then
    let idx := tapeGet tape 1 % 2
    let puzzle := logicPuzzleBank.getD idx ("", 0)
    ⟨applyDistortion puzzle.1 difficulty btape, puzzle.2, some ptype,
      some difficulty⟩
  else
    generateBasicCaptcha ptype cfg.range tape

/-! ## Challenge store (server file) -/

/-- The `context` snapshot stored with a challenge at creation time. -/
structure RiskContext where
  userAgent : Option String
  ip : Option String
  botScore : Nat
  botSignals : List String
  requestedDifficulty : Option String
  determinedDifficulty : String
deriving DecidableEq, Repr

/-- The `lastValidation` record written on each scored validation attempt. -/
structure ValidationRecord where
  timestamp : Int
  valid : Bool
  userAnswer : JsValue
  actualAnswer : Int
deriving DecidableEq, Repr

/-- One entry of `captchaStore`. -/
structure CaptchaData where
  answer : Int
  createdAt : Int
  expiresAt : Int
  attempts : Nat
  difficulty : String
  qtype : Option String
  context : RiskContext
  lastValidation : Option ValidationRecord
deriving DecidableEq, Repr

/-- The `captchaStore` map. -/
abbrev CaptchaStore := List (String × CaptchaData)

/-- The store write of the `/api/captcha` handler: a fresh entry with
`attempts = 0` and `expiresAt = now + config.captcha.expiration`. -/
def createChallenge (store : CaptchaStore) (id : String) (answer : Int)
    (now : Int) (difficulty : String) (qtype : Option String)
    (context : RiskContext) : CaptchaStore :=
  mapSet store id
    { answer := answer
      createdAt := now
      expiresAt := now + config.captcha.expiration
      attempts := 0
      difficulty := difficulty
      qtype := qtype
      context := context
      lastValidation := none }

/-- The response of the `/api/validate-captcha` handler (the JSON fields that
vary between its branches; fields the source leaves out of a branch are
`none`). -/
structure ValidateResult where
  status : Nat
  success : Bool
  valid : Bool
  reason : Option String
  attempts : Option Nat
  difficulty : Option String
deriving DecidableEq, Repr

/-- Whether the length guard
`typeof answer === 'string' && answer.length > config.security.maxAnswerLength`
fires: only string values are length-checked. -/
def answerTooLong (answer : JsValue) : Bool :=
  match answer with
  | .vStr s => s.length > config.security.maxAnswerLength
  | _ => false

/-- The `/api/validate-captcha` handler: input-shape checks, existence check
(`has` followed by `get` is modelled as one match on `mapGet`), lazy expiry,
attempt increment before the limit comparison, answer parsing/comparison, and
the store update (delete on success or exhaustion, write-back of the
incremented count on a wrong answer).  Returns the response and the updated
store. -/
def validateCaptcha (store : CaptchaStore) (now : Int)
    (captchaId : Option String) (answer : Option JsValue) :
    ValidateResult × CaptchaStore :=
  let missing : ValidateResult :=
    ⟨400, false, false, some "Missing captchaId or answer", none, none⟩
  match captchaId, answer with
  | none, _ => (missing, store)
  | some _, none => (missing, store)
  | some cid, some ans =>
    if cid = "" then (missing, store)
    else if ans = JsValue.vNull then (missing, store)
    else if answerTooLong ans then
      (⟨200, false, false, some "Answer too long", none, none⟩, store)
    else
      match mapGet store cid with
      | none =>
          (⟨200, false, false, some "Invalid or expired CAPTCHA", none, none⟩,
            store)
      | some data =>
          if now > data.expiresAt then
            (⟨200, false, false, some "CAPTCHA expired", none, none⟩,
              mapDelete store cid)
          else if data.attempts + 1 > config.captcha.maxAttempts then
            (⟨200, false, false, some "Too many attempts", none, none⟩,
              mapDelete store cid)
          else
            let okAns : Bool := parseIntJS ans == some data.answer
            let data' : CaptchaData :=
              { data with
                  attempts := data.attempts + 1
                  lastValidation :=
                    some ⟨now, okAns, ans, data.answer⟩ }
            if okAns then
              (⟨200, true, true, none, some (data.attempts + 1),
                  some data.difficulty⟩,
                mapDelete store cid)
            else
              (⟨200, true, false, some "Wrong answer", some (data.attempts + 1),
                  some data.difficulty⟩,
                mapSet store cid data')

/-- The store effect of the `/api/captcha/fallback` handler: discard the
previous challenge when the id is supplied and present. -/
def discardChallenge (store : CaptchaStore) (previousCaptchaId : Option String) :
    CaptchaStore :=
  match previousCaptchaId with
  | some pid => if pid ≠ "" && mapHas store pid then mapDelete store pid else store
  | none => store

/-- The challenge half of the periodic cleanup: delete every entry whose
`expiresAt` lies strictly in the past. -/
def sweepExpired (store : CaptchaStore) (now : Int) : CaptchaStore :=
  store.filter (fun p => ¬ now > p.2.expiresAt)

/-! ## Rate limiter (server file) -/

/-- `Math.ceil(a / 1000)` for the integer millisecond difference `a`; written
with floor division on `a + 999`, which agrees with the real-valued ceiling on
every integer. -/
def ceilDiv1000 (a : Int) : Int :=
  (a + 999) / 1000

/-- The per-key prune of `advancedRateLimit`: keep timestamps strictly newer
than `now - windowMs`. -/
def pruneWindow (cfg : LimitConfig) (reqs : List Int) (now : Int) : List Int :=
  reqs.filter (fun time => now - cfg.windowMs < time)

/-- The endpoint-class dispatch of `advancedRateLimit`. -/
def rateLimitClass (path : String) : String :=
  if path = "/api/captcha" then "captchaGeneration"
  else if path = "/api/validate-captcha" then "captchaValidation"
  else "general"

/-- The limit configuration for an endpoint class. -/
def rateLimitConfigFor (path : String) : LimitConfig :=
  if path = "/api/captcha" then config.rateLimit.captchaGeneration
  else if path = "/api/validate-captcha" then config.rateLimit.captchaValidation
  else config.rateLimit.general

/-- One `advancedRateLimit` check on a single key, given that key's stored
timestamp list and the current time: prune, store the pruned list, then either
reject (the pruned list is kept as is, and `retryAfter` is
`Math.ceil((requests[0] + windowMs - now) / 1000)`) or append `now` and allow.
Returns (allowed, new stored list, retryAfter of a rejection). -/
def advancedRateLimitCheck (cfg : LimitConfig) (reqs : List Int) (now : Int) :
    Bool × List Int × Option Int :=
  let requests := pruneWindow cfg reqs now
  if requests.length ≥ cfg.maxReq then
    (false, requests, some (ceilDiv1000 (requests.headD 0 + cfg.windowMs - now)))
  else
    (true, requests ++ [now], none)

/-- A sequence of checks on one key, returning the allow/reject outcomes in
order and the final stored list. -/
def runChecks (cfg : LimitConfig) : List Int → List Int → List Bool × List Int
  | reqs, [] => ([], reqs)
  | reqs, t :: ts =>
      let step := advancedRateLimitCheck cfg reqs t
      let rest := runChecks cfg step.2.1 ts
      (step.1 :: rest.1, rest.2)

/-! ## Store invariants and reachability -/

/-- The invariant of claim C7: keys are pairwise distinct (exactly one
challenge per id) and no surviving entry has more than `maxAttempts`
attempts. -/
def StoreInv (s : CaptchaStore) : Prop :=
  (mapKeys s).Nodup ∧ ∀ p ∈ s, p.2.attempts ≤ config.captcha.maxAttempts

/-- The states of `captchaStore` reachable from startup through the four
store-mutating operations of the server. -/
inductive ReachableStore : CaptchaStore → Prop where
  | empty : ReachableStore []
  | create (s : CaptchaStore) (id : String) (answer : Int) (now : Int)
      (difficulty : String) (qtype : Option String) (context : RiskContext) :
      ReachableStore s →
      ReachableStore (createChallenge s id answer now difficulty qtype context)
  | validate (s : CaptchaStore) (now : Int) (captchaId : Option String)
      (answer : Option JsValue) :
      ReachableStore s →
      ReachableStore (validateCaptcha s now captchaId answer).2
  | discard (s : CaptchaStore) (previousCaptchaId : Option String) :
      ReachableStore s →
      ReachableStore (discardChallenge s previousCaptchaId)
  | sweep (s : CaptchaStore) (now : Int) :
      ReachableStore s →
      ReachableStore (sweepExpired s now)

/-! ## Recomputation predicate for the generator contract -/

/-- Characterization of a result of the basic-captcha path: no `type` or
`difficulty` field, and the answer is exactly the defining operation over the
operands embedded (undistorted) in the question. -/
def BasicRecompute (r : CaptchaResult) : Prop :=
  r.qtype = none ∧ r.difficulty = none ∧
  ((∃ a b : Nat, r.question = s!"What is {a} + {b}?" ∧ r.answer = (a : Int) + b)
   ∨ (∃ x y : Nat, y ≤ x ∧ r.question = s!"What is {x} - {y}?" ∧
        r.answer = (x : Int) - y)
   ∨ (∃ a b : Nat, r.question = s!"What is {a} × {b}?" ∧ r.answer = (a : Int) * b)
   ∨ (∃ n : Nat, n ≤ 10 ∧
        r.question = s!"Type the number: \"{numberWordAt n}\"" ∧
        r.answer = (n : Int)))

/-- Round-trip characterization of a `generateCaptcha` result: the stored
answer is recomputed exactly by the defining operation of the puzzle over the
operands embedded in the (possibly distorted) question; the `type` tag is
present on the four explicit switch cases and absent on the basic path. -/
def Recomputes (difficulty : String) (btape : List Bool) (r : CaptchaResult) :
    Prop :=
  (∃ n1 n2 : Nat, ∃ op : String,
     r.qtype = some "mixedOperations" ∧
     r.question = applyDistortion s!"Calculate: {n1} {op} {n2}" difficulty btape ∧
     ((op = "+" ∧ r.answer = (n1 : Int) + n2) ∨
      (op = "-" ∧ r.answer = (n1 : Int) - n2) ∨
      (op = "*" ∧ r.answer = (n1 : Int) * n2)))
  ∨ (∃ pA pB : Nat, ∃ tmpl ∈ wordProblemTemplates,
     r.qtype = some "wordProblem" ∧
     r.question = applyDistortion
       ((tmpl.1.replace "{a}" (toString pA)).replace "{b}" (toString pB))
       difficulty btape ∧
     r.answer = tmpl.2 pA pB)
  ∨ (∃ coeff konst res : Nat,
     r.qtype = some "complexAlgebra" ∧
     r.question = applyDistortion s!"Solve for x: {coeff}x + {konst} = {res}"
       difficulty btape ∧
     (coeff : Int) * r.answer + (konst : Int) = (res : Int))
  ∨ (∃ p ∈ logicPuzzleBank,
     r.qtype = some "logicPuzzle" ∧
     r.question = applyDistortion p.1 difficulty btape ∧ r.answer = p.2)
  ∨ BasicRecompute r

/-! ## Concrete states used by witnesses and counterexamples -/

/-- A risk-context snapshot for concrete store states. -/
def ctxW : RiskContext := ⟨some "ua", some "ip", 0, [], none, "easy"⟩

/-- A freshly created challenge (answer 7, TTL ending at 600000, no attempts
yet). -/
def freshData : CaptchaData := ⟨7, 0, 600000, 0, "easy", some "addition", ctxW, none⟩

/-- A still-stored challenge that has already absorbed `maxAttempts` wrong
attempts. -/
def exhaustedData : CaptchaData :=
  ⟨7, 0, 600000, 3, "easy", some "addition", ctxW, none⟩

/-! ## Helper lemmas -/

theorem mapGet_mapDelete_self {α : Type} (s : List (String × α)) (k : String) :
    mapGet (mapDelete s k) k = none := by
  induction s with
  | nil => rfl
  | cons p rest ih =>
      by_cases h : p.1 = k
      · simpa [mapDelete, List.filter, h] using ih
      · simpa [mapDelete, List.filter, h, mapGet] using ih

theorem mapGet_mapSet_self {α : Type} (s : List (String × α)) (k : String) (v : α) :
    mapGet (mapSet s k v) k = some v := by
  induction s with
  | nil => simp [mapSet, mapGet]
  | cons p rest ih =>
      by_cases h : p.1 = k
      · simp [mapSet, h, mapGet]
      · cases p with
        | mk k' v' =>
            simp only at h
            simp [mapSet, h, mapGet, ih]

/-- Membership in `mapSet` comes from the new entry or from the old list. -/
theorem mem_mapSet {α : Type} {k : String} {v : α} {p : String × α} :
    ∀ {s : List (String × α)}, p ∈ mapSet s k v → p = (k, v) ∨ p ∈ s := by
  intro s
  induction s with
  | nil => intro hp; simpa [mapSet] using hp
  | cons q rest ih =>
      intro hp
      obtain ⟨k', v'⟩ := q
      by_cases h : k' = k
      · simp only [mapSet, if_pos h, List.mem_cons] at hp
        rcases hp with hp | hp
        · exact Or.inl hp
        · exact Or.inr (List.mem_cons_of_mem _ hp)
      · simp only [mapSet, if_neg h, List.mem_cons] at hp
        rcases hp with hp | hp
        · exact Or.inr (by simp [hp])
        · rcases ih hp with h1 | h1
          · exact Or.inl h1
          · exact Or.inr (List.mem_cons_of_mem _ h1)

/-- Membership in `mapDelete` comes from the old list. -/
theorem mem_mapDelete {α : Type} {s : List (String × α)} {k : String}
    {p : String × α} (hp : p ∈ mapDelete s k) : p ∈ s :=
  List.mem_of_mem_filter hp

@[simp] theorem mapKeys_nil {α : Type} : mapKeys ([] : List (String × α)) = [] := rfl

@[simp] theorem mapKeys_cons {α : Type} (p : String × α) (s : List (String × α)) :
    mapKeys (p :: s) = p.1 :: mapKeys s := rfl

theorem mem_mapKeys_mapSet {α : Type} {k a : String} {v : α} :
    ∀ {s : List (String × α)}, a ∈ mapKeys (mapSet s k v) → a ∈ mapKeys s ∨ a = k := by
  intro s
  induction s with
  | nil =>
      intro ha
      simp only [mapSet, mapKeys_nil, mapKeys_cons, List.mem_cons] at ha
      rcases ha with ha | ha
      · exact Or.inr ha
      · exact absurd ha (List.not_mem_nil a)
  | cons q rest ih =>
      intro ha
      obtain ⟨k', v'⟩ := q
      by_cases h : k' = k
      · simp only [mapSet, if_pos h, mapKeys_cons, List.mem_cons] at ha
        rcases ha with ha | ha
        · exact Or.inr ha
        · exact Or.inl (by simp only [mapKeys_cons, List.mem_cons]; exact Or.inr ha)
      · simp only [mapSet, if_neg h, mapKeys_cons, List.mem_cons] at ha
        rcases ha with ha | ha
        · exact Or.inl (by simp only [mapKeys_cons, List.mem_cons]; exact Or.inl ha)
        · rcases ih ha with h1 | h1
          · exact Or.inl (by simp only [mapKeys_cons, List.mem_cons]; exact Or.inr h1)
          · exact Or.inr h1

/-- `mapSet` preserves distinctness of keys. -/
theorem nodup_mapKeys_mapSet {α : Type} {k : String} {v : α} :
    ∀ {s : List (String × α)}, (mapKeys s).Nodup → (mapKeys (mapSet s k v)).Nodup := by
  intro s
  induction s with
  | nil => intro _; simp [mapSet]
  | cons q rest ih =>
      intro hs
      obtain ⟨k', v'⟩ := q
      simp only [mapKeys_cons, List.nodup_cons] at hs
      by_cases h : k' = k
      · simp only [mapSet, if_pos h, mapKeys_cons, List.nodup_cons]
        refine ⟨?_, hs.2⟩
        subst h
        exact hs.1
      · simp only [mapSet, if_neg h, mapKeys_cons, List.nodup_cons]
        refine ⟨?_, ih hs.2⟩
        intro hmem
        rcases mem_mapKeys_mapSet hmem with h1 | h1
        · exact hs.1 h1
        · exact h h1

/-- `mapDelete` preserves distinctness of keys. -/
theorem nodup_mapKeys_mapDelete {α : Type} {s : List (String × α)} (k : String)
    (hs : (mapKeys s).Nodup) : (mapKeys (mapDelete s k)).Nodup :=
  List.Nodup.sublist (List.Sublist.map _ (List.filter_sublist s)) hs

/-- A filtered association list has distinct keys when the original does. -/
theorem nodup_mapKeys_filter {α : Type} {s : List (String × α)} (q : String × α → Bool)
    (hs : (mapKeys s).Nodup) : (mapKeys (s.filter q)).Nodup :=
  List.Nodup.sublist (List.Sublist.map _ (List.filter_sublist s)) hs

theorem ceilDiv1000_pos {a : Int} (h : 0 < a) : 0 < ceilDiv1000 a := by
  unfold ceilDiv1000
  omega

/-- Pruning keeps exactly the timestamps newer than the window start, so a
window of copies of the current instant is untouched when the window length is
positive. -/
theorem pruneWindow_replicate (cfg : LimitConfig) (hwin : 0 < cfg.windowMs)
    (j : Nat) (t : Int) :
    pruneWindow cfg (List.replicate j t) t = List.replicate j t := by
  refine List.filter_eq_self.2 ?_
  intro a ha
  have : a = t := List.eq_of_mem_replicate ha
  subst this
  simpa using by omega

/-- Every element of the pruned list passed the window test. -/
theorem mem_pruneWindow {cfg : LimitConfig} {reqs : List Int} {now a : Int}
    (ha : a ∈ pruneWindow cfg reqs now) : now - cfg.windowMs < a := by
  have := List.of_mem_filter ha
  simpa using this

/-- One-step unfolding of `runChecks`. -/
theorem runChecks_cons (cfg : LimitConfig) (reqs : List Int) (t : Int)
    (ts : List Int) :
    (runChecks cfg reqs (t :: ts)).1 =
      (advancedRateLimitCheck cfg reqs t).1 ::
        (runChecks cfg (advancedRateLimitCheck cfg reqs t).2.1 ts).1 := rfl

/-- Running `d + 1` further checks at instant `t` on a key that already holds
`j` timestamps at `t`, with `j + d` = the maximum: the first `d` are allowed
and the last is rejected. -/
theorem runChecks_replicate (cfg : LimitConfig) (hwin : 0 < cfg.windowMs)
    (t : Int) :
    ∀ d j, j + d = cfg.maxReq →
      (runChecks cfg (List.replicate j t) (List.replicate (d + 1) t)).1 =
        List.replicate d true ++ [false] := by
  intro d
  induction d with
  | zero =>
      intro j hj
      have hstep : advancedRateLimitCheck cfg (List.replicate j t) t =
          (false, List.replicate j t,
            some (ceilDiv1000 ((List.replicate j t).headD 0 + cfg.windowMs - t))) := by
        unfold advancedRateLimitCheck
        rw [pruneWindow_replicate cfg hwin j t]
        rw [if_pos (by simp only [List.length_replicate]; omega)]
      have h1 : List.replicate (0 + 1) t = t :: [] := rfl
      rw [h1, runChecks_cons, hstep]
      simp [runChecks]
  | succ d ih =>
      intro j hj
      have hstep : advancedRateLimitCheck cfg (List.replicate j t) t =
          (true, List.replicate (j + 1) t, none) := by
        unfold advancedRateLimitCheck
        rw [pruneWindow_replicate cfg hwin j t]
        rw [if_neg (by simp only [List.length_replicate]; omega)]
        rw [← List.replicate_succ']
      have h1 : List.replicate (d + 1 + 1) t = t :: List.replicate (d + 1) t :=
        List.replicate_succ t (d + 1)
      rw [h1, runChecks_cons, hstep]
      rw [ih (j + 1) (by omega)]
      simp [List.replicate_succ]

/-- A validation call that passes the input-shape checks and finds its
challenge reduces to the scored part of the handler. -/
theorem validateCaptcha_eq_scored (store : CaptchaStore) (now : Int)
    (cid : String) (ans : JsValue) (data : CaptchaData)
    (hget : mapGet store cid = some data) (hcid : cid ≠ "")
    (hnull : ans ≠ JsValue.vNull) (hlen : answerTooLong ans = false) :
    validateCaptcha store now (some cid) (some ans) =
      if now > data.expiresAt then
        (⟨200, false, false, some "CAPTCHA expired", none, none⟩,
          mapDelete store cid)
      else if data.attempts + 1 > config.captcha.maxAttempts then
        (⟨200, false, false, some "Too many attempts", none, none⟩,
          mapDelete store cid)
      else if parseIntJS ans == some data.answer then
        (⟨200, true, true, none, some (data.attempts + 1),
            some data.difficulty⟩,
          mapDelete store cid)
      else
        (⟨200, true, false, some "Wrong answer", some (data.attempts + 1),
            some data.difficulty⟩,
          mapSet store cid
            { data with
                attempts := data.attempts + 1
                lastValidation :=
                  some ⟨now, parseIntJS ans == some data.answer, ans,
                    data.answer⟩ }) := by
  simp only [validateCaptcha]
  rw [if_neg hcid, if_neg hnull]
  rw [hlen]
  simp only [Bool.false_eq_true, if_false, hget]

/-- `mapSet` with a value under the attempt bound preserves the invariant. -/
theorem storeInv_mapSet {s : CaptchaStore} {id : String} {v : CaptchaData}
    (hs : StoreInv s) (hv : v.attempts ≤ config.captcha.maxAttempts) :
    StoreInv (mapSet s id v) := by
  refine ⟨nodup_mapKeys_mapSet hs.1, ?_⟩
  intro p hp
  rcases mem_mapSet hp with h | h
  · subst h; exact hv
  · exact hs.2 p h

/-- `mapDelete` preserves the invariant. -/
theorem storeInv_mapDelete {s : CaptchaStore} (id : String) (hs : StoreInv s) :
    StoreInv (mapDelete s id) :=
  ⟨nodup_mapKeys_mapDelete id hs.1, fun p hp => hs.2 p (mem_mapDelete hp)⟩

/-- Creation inserts an entry with `attempts = 0`. -/
theorem storeInv_create {s : CaptchaStore} (hs : StoreInv s) (id : String)
    (answer : Int) (now : Int) (difficulty : String) (qtype : Option String)
    (context : RiskContext) :
    StoreInv (createChallenge s id answer now difficulty qtype context) :=
  storeInv_mapSet hs (by simp [config])

/-- Validation either leaves the store unchanged, deletes an entry, or writes
back an entry whose incremented count passed the limit comparison. -/
theorem storeInv_validate {s : CaptchaStore} (hs : StoreInv s) (now : Int)
    (captchaId : Option String) (answer : Option JsValue) :
    StoreInv (validateCaptcha s now captchaId answer).2 := by
  unfold validateCaptcha
  match captchaId, answer with
  | none, _ => exact hs
  | some _, none => exact hs
  | some cid, some ans =>
      simp only
      split_ifs with h1 h2 h3
      · exact hs
      · exact hs
      · exact hs
      · cases hget : mapGet s cid with
        | none => exact hs
        | some data =>
            simp only
            split_ifs with h4 h5 h6
            · exact storeInv_mapDelete cid hs
            · exact storeInv_mapDelete cid hs
            · exact storeInv_mapDelete cid hs
            · exact storeInv_mapSet hs (by simp; omega)

/-- Discarding preserves the invariant. -/
theorem storeInv_discard {s : CaptchaStore} (hs : StoreInv s)
    (previousCaptchaId : Option String) :
    StoreInv (discardChallenge s previousCaptchaId) := by
  match previousCaptchaId with
  | none => exact hs
  | some pid =>
      simp only [discardChallenge]
      split_ifs with h
      · exact storeInv_mapDelete pid hs
      · exact hs

/-- The periodic expiry sweep preserves the invariant. -/
theorem storeInv_sweep {s : CaptchaStore} (hs : StoreInv s) (now : Int) :
    StoreInv (sweepExpired s now) :=
  ⟨nodup_mapKeys_filter _ hs.1,
    fun p hp => hs.2 p (List.mem_of_mem_filter hp)⟩

/-- Any result of the basic-captcha path satisfies the recompute
characterization: untagged, undistorted, answer = operation over the embedded
operands. -/
theorem basicRecompute_generateBasicCaptcha (ptype : String) (range : Nat × Nat)
    (tape : List Nat) : BasicRecompute (generateBasicCaptcha ptype range tape) := by
  have hnum : randomInRange (0, 10) (tapeGet tape 3) ≤ 10 := by
    show (0 : Nat) + tapeGet tape 3 % (10 - 0 + 1) ≤ 10
    omega
  unfold BasicRecompute generateBasicCaptcha
  split_ifs with h1 h2 h3 h4
  · exact ⟨rfl, rfl, Or.inl ⟨_, _, rfl, rfl⟩⟩
  · exact ⟨rfl, rfl, Or.inr (Or.inl ⟨_, _, min_le_max, rfl, rfl⟩)⟩
  · exact ⟨rfl, rfl, Or.inr (Or.inr (Or.inl ⟨_, _, rfl, rfl⟩))⟩
  · exact ⟨rfl, rfl, Or.inr (Or.inr (Or.inr ⟨_, hnum, rfl, rfl⟩))⟩
  · exact ⟨rfl, rfl, Or.inl ⟨_, _, rfl, rfl⟩⟩

theorem getD_mem_wordProblemTemplates {m : Nat} (hm : m < 3)
    (d : String × (Nat → Nat → Int)) :
    wordProblemTemplates.getD m d ∈ wordProblemTemplates := by
  interval_cases m
  · exact List.mem_cons_self _ _
  · exact List.mem_cons_of_mem _ (List.mem_cons_self _ _)
  · exact List.mem_cons_of_mem _ (List.mem_cons_of_mem _ (List.mem_cons_self _ _))

theorem getD_mem_logicPuzzleBank {m : Nat} (hm : m < 2) (d : String × Int) :
    logicPuzzleBank.getD m d ∈ logicPuzzleBank := by
  interval_cases m
  · exact List.mem_cons_self _ _
  · exact List.mem_cons_of_mem _ (List.mem_cons_self _ _)

/-- C8 (amended): every `generateCaptcha` result round-trips: its stored
answer is exactly the defining operation of the generated puzzle over the
operands embedded in the question, and the `type` tag is present exactly on
the four explicit switch cases (the basic path returns no tag). -/
theorem generateCaptcha_recomputes (difficulty : String) (tape : List Nat)
    (btape : List Bool) :
    Recomputes difficulty btape (generateCaptcha difficulty tape btape) := by
  unfold Recomputes
  simp only [generateCaptcha]
  split_ifs with h1 hop1 hop2 h2 h3 h4
  · -- mixedOperations, op "+"
    exact Or.inl
      ⟨randomInRange (difficultyTable difficulty).range (tapeGet tape 2),
       randomInRange (difficultyTable difficulty).range (tapeGet tape 3),
       ["+", "-", "*"].getD (tapeGet tape 1 % 3) "+",
       by rw [h1], rfl, Or.inl ⟨hop1, rfl⟩⟩
  · -- mixedOperations, op "-"
    exact Or.inl
      ⟨randomInRange (difficultyTable difficulty).range (tapeGet tape 2),
       randomInRange (difficultyTable difficulty).range (tapeGet tape 3),
       ["+", "-", "*"].getD (tapeGet tape 1 % 3) "+",
       by rw [h1], rfl, Or.inr (Or.inl ⟨hop2, rfl⟩)⟩
  · -- mixedOperations, op "*"
    refine Or.inl
      ⟨randomInRange (difficultyTable difficulty).range (tapeGet tape 2),
       randomInRange (difficultyTable difficulty).range (tapeGet tape 3),
       ["+", "-", "*"].getD (tapeGet tape 1 % 3) "+",
       by rw [h1], rfl, Or.inr (Or.inr ⟨?_, rfl⟩)⟩
    have hm : tapeGet tape 1 % 3 < 3 := Nat.mod_lt _ (by norm_num)
    set m := tapeGet tape 1 % 3 with hmdef
    interval_cases m
    · exact absurd rfl hop1
    · exact absurd rfl hop2
    · rfl
  · -- wordProblem
    have hm : tapeGet tape 1 % 3 < 3 := Nat.mod_lt _ (by norm_num)
    exact Or.inr (Or.inl
      ⟨randomInRange (2, 10) (tapeGet tape 2),
       randomInRange (2, 10) (tapeGet tape 3),
       wordProblemTemplates.getD (tapeGet tape 1 % 3) ("", fun _ _ => 0),
       getD_mem_wordProblemTemplates hm _, by rw [h2], rfl, rfl⟩)
  · -- complexAlgebra
    refine Or.inr (Or.inr (Or.inl
      ⟨randomInRange (2, 5) (tapeGet tape 1),
       randomInRange (1, 10) (tapeGet tape 2),
       randomInRange (2, 5) (tapeGet tape 1) *
           randomInRange (3, 8) (tapeGet tape 3) +
         randomInRange (1, 10) (tapeGet tape 2),
       by rw [h3], rfl, ?_⟩))
    have hc : 0 < randomInRange (2, 5) (tapeGet tape 1) := by
      show 0 < 2 + tapeGet tape 1 % (5 - 2 + 1)
      omega
    show (randomInRange (2, 5) (tapeGet tape 1) : Int) *
        ((randomInRange (2, 5) (tapeGet tape 1) *
              randomInRange (3, 8) (tapeGet tape 3) +
            randomInRange (1, 10) (tapeGet tape 2) -
            randomInRange (1, 10) (tapeGet tape 2)) /
          randomInRange (2, 5) (tapeGet tape 1) : Nat) +
        (randomInRange (1, 10) (tapeGet tape 2) : Int) =
      ((randomInRange (2, 5) (tapeGet tape 1) *
            randomInRange (3, 8) (tapeGet tape 3) +
          randomInRange (1, 10) (tapeGet tape 2) : Nat) : Int)
    rw [Nat.add_sub_cancel,
      Nat.mul_div_cancel_left (randomInRange (3, 8) (tapeGet tape 3)) hc]
    push_cast
    ring
  · -- logicPuzzle
    have hm : tapeGet tape 1 % 2 < 2 := Nat.mod_lt _ (by norm_num)
    exact Or.inr (Or.inr (Or.inr (Or.inl
      ⟨logicPuzzleBank.getD (tapeGet tape 1 % 2) ("", 0),
       getD_mem_logicPuzzleBank hm _, by rw [h4], rfl, rfl⟩)))
  · exact Or.inr (Or.inr (Or.inr (Or.inr
      (basicRecompute_generateBasicCaptcha _ _ _))))

/-! ## Claim theorems -/

/-- C1 (counterexample): the fallback endpoint does not escalate toward
"extreme": with `previousDifficulty = "medium"` it returns "easy" (the claim
says "hard"), and with `previousDifficulty = "extreme"` it returns "hard" (the
claim says "extreme"). -/
theorem fallbackDifficulty_claim_false :
    fallbackDifficulty (some "medium") = "easy" ∧
    ("easy" : String) ≠ "hard" ∧
    fallbackDifficulty (some "extreme") = "hard" ∧
    ("hard" : String) ≠ "extreme" := by
  refine ⟨rfl, by decide, rfl, by decide⟩

/-- C1 (amended): the fallback difficulty moves one step toward "easy" along
the fixed order extreme > hard > medium > easy, stays at "easy" once there,
and defaults to "easy" when the previous difficulty is absent or
unrecognized. -/
theorem fallbackDifficulty_steps_toward_easy :
    fallbackDifficulty none = "easy" ∧
    fallbackDifficulty (some "easy") = "easy" ∧
    fallbackDifficulty (some "medium") = "easy" ∧
    fallbackDifficulty (some "hard") = "medium" ∧
    fallbackDifficulty (some "extreme") = "hard" ∧
    fallbackDifficulty (some "unknown") = "easy" ∧
    fallbackDifficulty (some "") = "easy" := by
  refine ⟨rfl, rfl, rfl, rfl, rfl, rfl, rfl⟩

/-- C2 (counterexample): a request with no requested difficulty and the
non-mobile, non-tablet user-agent "bot crawl spider scrape python curl"
accumulates bot score 30 > 25, yet `determineDifficulty` returns "hard", not
"extreme": the `> 15` check fires first, so the "extreme" branch never runs. -/
theorem determineDifficulty_claim_false :
    computeBotScore "bot crawl spider scrape python curl" "text/html" = 30 ∧
    isMobileUA "bot crawl spider scrape python curl" = false ∧
    isTabletUA "bot crawl spider scrape python curl" = false ∧
    (30 : Nat) > 25 ∧
    determineDifficulty none "bot crawl spider scrape python curl" 30 = "hard" ∧
    ("hard" : String) ≠ "extreme" := by
  refine ⟨by decide, by decide, by decide, by decide, by decide, by decide⟩

/-- C2 (amended): with no valid requested difficulty and a user-agent that is
neither mobile- nor tablet-indicating, any accumulated score above 15
(including every score above 25) yields "hard"; the "extreme" branch of the
threshold cascade is unreachable, so the function never returns "extreme" on
this path. -/
theorem determineDifficulty_thresholds (rd : Option String) (ua : String)
    (score : Nat) (hreq : isValidRequested rd = false) :
    (isMobileUA ua = false → isTabletUA ua = false → 15 < score →
      determineDifficulty rd ua score = "hard") ∧
    determineDifficulty rd ua score ≠ "extreme" := by
  constructor
  · intro hm ht hs
    unfold determineDifficulty
    rw [hreq, hm, ht]
    simp only [Bool.false_eq_true, if_false, if_pos hs]
  · unfold determineDifficulty
    rw [hreq]
    simp only [Bool.false_eq_true, if_false]
    split_ifs with hm ht hs hx
    · decide
    · decide
    · decide
    · omega
    · decide

/-- C2 (witness): the amended theorem applied at score 30 with a bot-like
desktop user-agent, and at score 26 with an empty user-agent. -/
theorem determineDifficulty_thresholds_witness :
    determineDifficulty none "bot crawl spider scrape python curl" 30 = "hard" ∧
    determineDifficulty none "" 26 ≠ "extreme" :=
  ⟨(determineDifficulty_thresholds none "bot crawl spider scrape python curl" 30
      (by decide)).1 (by decide) (by decide) (by decide),
   (determineDifficulty_thresholds none "" 26 (by decide)).2⟩

/-- C8 (counterexample): generation at difficulty "easy" with kind draw 0
selects "addition", which goes through the basic path and returns a record
with no kind tag at all (`type` is absent), contradicting the claimed
contract `generate(difficulty) -> {question, answer, kind}`. -/
theorem generateCaptcha_kind_claim_false :
    (generateCaptcha "easy" [0, 2, 3] []).qtype = none ∧
    (generateCaptcha "easy" [0, 2, 3] []).question = "What is 3 + 4?" ∧
    (generateCaptcha "easy" [0, 2, 3] []).answer = 7 := by
  refine ⟨rfl, rfl, rfl⟩

/-- C9: at difficulty "extreme", when the kind draw selects
"multipleOperations" (index 1 of the extreme kind list), no switch case
matches, the generator falls through to the basic path, and the result is a
plain undistorted addition question over the extreme range [5, 30] with answer
`a + b` (and no kind tag). -/
theorem generateCaptcha_extreme_multipleOperations (tape : List Nat)
    (btape : List Bool) (h : tapeGet tape 0 % 3 = 1) :
    ∃ a b : Nat, 5 ≤ a ∧ a ≤ 30 ∧ 5 ≤ b ∧ b ≤ 30 ∧
      generateCaptcha "extreme" tape btape =
        ⟨s!"What is {a} + {b}?", (a : Int) + b, none, none⟩ := by
  have hb1 : tapeGet tape 1 % 26 < 26 := Nat.mod_lt _ (by norm_num)
  have hb2 : tapeGet tape 2 % 26 < 26 := Nat.mod_lt _ (by norm_num)
  refine ⟨randomInRange (5, 30) (tapeGet tape 1),
          randomInRange (5, 30) (tapeGet tape 2),
          ?_, ?_, ?_, ?_, ?_⟩
  · show 5 ≤ 5 + tapeGet tape 1 % (30 - 5 + 1); omega
  · show 5 + tapeGet tape 1 % (30 - 5 + 1) ≤ 30; omega
  · show 5 ≤ 5 + tapeGet tape 2 % (30 - 5 + 1); omega
  · show 5 + tapeGet tape 2 % (30 - 5 + 1) ≤ 30; omega
  · have hp : (difficultyTable "extreme").types.getD
        (tapeGet tape 0 % (difficultyTable "extreme").types.length) "" =
        "multipleOperations" := by
      have h3 : (difficultyTable "extreme").types.length = 3 := rfl
      rw [h3, h]
      rfl
    simp only [generateCaptcha]
    rw [hp]
    rfl

/-- C9 (witness): the theorem applied at the concrete tape [1, 0, 25], whose
kind draw selects index 1 ("multipleOperations") of the extreme kind list. -/
theorem generateCaptcha_extreme_multipleOperations_witness :
    tapeGet [1, 0, 25] 0 % 3 = 1 ∧
    (∃ a b : Nat, 5 ≤ a ∧ a ≤ 30 ∧ 5 ≤ b ∧ b ≤ 30 ∧
      generateCaptcha "extreme" [1, 0, 25] [] =
        ⟨s!"What is {a} + {b}?", (a : Int) + b, none, none⟩) :=
  ⟨by decide, generateCaptcha_extreme_multipleOperations [1, 0, 25] [] (by decide)⟩

/-- C10: a mixed-operations draw at difficulty "hard" with operator "-" and
operands drawn as 1 then 20 stores the negative answer 1 - 20 = -19: the
operands are applied in drawn order, with no larger-minus-smaller reordering.
By contrast, the basic subtraction kind reorders: the same operand draws at
difficulty "easy" (operands 1 and 10) yield the non-negative answer 9. -/
theorem mixedOperations_negative_answer :
    (generateCaptcha "hard" [2, 1, 0, 19] []).qtype = some "mixedOperations" ∧
    (generateCaptcha "hard" [2, 1, 0, 19] []).answer = -19 ∧
    (generateCaptcha "hard" [2, 1, 0, 19] []).answer < 0 ∧
    (generateCaptcha "easy" [1, 0, 19] []).question = "What is 10 - 1?" ∧
    (generateCaptcha "easy" [1, 0, 19] []).answer = 9 ∧
    (0 : Int) ≤ (generateCaptcha "easy" [1, 0, 19] []).answer := by
  refine ⟨rfl, rfl, by decide, rfl, rfl, by decide⟩

/-- C3 (counterexample): the claim quantifies over every stored challenge,
but a stored challenge whose attempt count has reached `maxAttempts` (still
present, unexpired) rejects even the correct answer: the pre-comparison
increment pushes it over the limit, yielding "Too many attempts" with
`valid = false` instead of the claimed `valid = true`. -/
theorem validate_one_time_use_claim_false :
    mapGet [("c", exhaustedData)] "c" = some exhaustedData ∧
    exhaustedData.answer = 7 ∧
    (0 : Int) ≤ exhaustedData.expiresAt ∧
    (validateCaptcha [("c", exhaustedData)] 0 (some "c")
        (some (.vNum 7))).1.valid = false ∧
    (validateCaptcha [("c", exhaustedData)] 0 (some "c")
        (some (.vNum 7))).1.reason = some "Too many attempts" := by
  refine ⟨rfl, rfl, by decide, rfl, rfl⟩

/-- C3 (amended): for every stored challenge that is unexpired and has had
fewer than `maxAttempts` scored attempts, validating with the correct answer
returns `valid = true` and removes the challenge, and a second validation
with the same id afterwards returns `valid = false` with reason
"Invalid or expired CAPTCHA" (one-time use). -/
theorem validate_one_time_use (store : CaptchaStore) (now now2 : Int)
    (id : String) (data : CaptchaData) (hget : mapGet store id = some data)
    (hid : id ≠ "") (hexp : ¬ now > data.expiresAt)
    (hatt : data.attempts < config.captcha.maxAttempts) :
    (validateCaptcha store now (some id) (some (.vNum data.answer))).1.valid
        = true ∧
    mapGet (validateCaptcha store now (some id)
        (some (.vNum data.answer))).2 id = none ∧
    (validateCaptcha (validateCaptcha store now (some id)
          (some (.vNum data.answer))).2 now2 (some id)
        (some (.vNum data.answer))).1.valid = false ∧
    (validateCaptcha (validateCaptcha store now (some id)
          (some (.vNum data.answer))).2 now2 (some id)
        (some (.vNum data.answer))).1.reason
      = some "Invalid or expired CAPTCHA" := by
  have hred := validateCaptcha_eq_scored store now id (.vNum data.answer) data
    hget hid (by intro hc; cases hc) rfl
  rw [if_neg hexp] at hred
  rw [if_neg (by omega : ¬ data.attempts + 1 > config.captcha.maxAttempts)]
    at hred
  rw [if_pos (by simp [parseIntJS] :
      (parseIntJS (.vNum data.answer) == some data.answer) = true)] at hred
  rw [hred]
  have hdel : mapGet (mapDelete store id) id = none := mapGet_mapDelete_self _ _
  refine ⟨rfl, hdel, ?_, ?_⟩ <;>
    · simp only [validateCaptcha]
      rw [if_neg hid]
      simp only [hdel]
      rfl

/-- C3 (witness): the amended theorem applied to a one-entry store holding a
fresh unexpired challenge with answer 7, validated twice with 7. -/
theorem validate_one_time_use_witness :
    (validateCaptcha [("c", freshData)] 0 (some "c")
        (some (.vNum freshData.answer))).1.valid = true ∧
    mapGet (validateCaptcha [("c", freshData)] 0 (some "c")
        (some (.vNum freshData.answer))).2 "c" = none ∧
    (validateCaptcha (validateCaptcha [("c", freshData)] 0 (some "c")
          (some (.vNum freshData.answer))).2 5 (some "c")
        (some (.vNum freshData.answer))).1.valid = false ∧
    (validateCaptcha (validateCaptcha [("c", freshData)] 0 (some "c")
          (some (.vNum freshData.answer))).2 5 (some "c")
        (some (.vNum freshData.answer))).1.reason
      = some "Invalid or expired CAPTCHA" :=
  validate_one_time_use [("c", freshData)] 0 5 "c" freshData (by decide)
    (by decide) (by decide) (by decide)

/-- C4: for a stored, unexpired challenge and a shape-valid submission, the
attempt count is incremented before the limit comparison: a wrong answer with
post-increment count at most `maxAttempts` keeps the challenge with the
updated count, while a validation starting from `attempts = maxAttempts` (the
`maxAttempts + 1`-th attempt) reports "Too many attempts" with `valid = false`,
deletes the challenge, and leaves the id unusable afterwards. -/
theorem validate_attempt_limit (store : CaptchaStore) (now now2 : Int)
    (id : String) (data : CaptchaData) (ans : JsValue)
    (hget : mapGet store id = some data) (hid : id ≠ "")
    (hnull : ans ≠ JsValue.vNull) (hlen : answerTooLong ans = false)
    (hexp : ¬ now > data.expiresAt) :
    (data.attempts + 1 ≤ config.captcha.maxAttempts →
      parseIntJS ans ≠ some data.answer →
      (validateCaptcha store now (some id) (some ans)).1.valid = false ∧
      (validateCaptcha store now (some id) (some ans)).1.reason
          = some "Wrong answer" ∧
      (validateCaptcha store now (some id) (some ans)).1.attempts
          = some (data.attempts + 1) ∧
      mapGet (validateCaptcha store now (some id) (some ans)).2 id =
        some { data with
                 attempts := data.attempts + 1
                 lastValidation := some ⟨now, false, ans, data.answer⟩ }) ∧
    (data.attempts + 1 > config.captcha.maxAttempts →
      (validateCaptcha store now (some id) (some ans)).1.valid = false ∧
      (validateCaptcha store now (some id) (some ans)).1.reason
          = some "Too many attempts" ∧
      mapGet (validateCaptcha store now (some id) (some ans)).2 id = none ∧
      (validateCaptcha (validateCaptcha store now (some id) (some ans)).2 now2
          (some id) (some ans)).1.reason = some "Invalid or expired CAPTCHA") := by
  have hred := validateCaptcha_eq_scored store now id ans data hget hid hnull hlen
  rw [if_neg hexp] at hred
  constructor
  · intro hle hne
    rw [if_neg (by omega : ¬ data.attempts + 1 > config.captcha.maxAttempts)]
      at hred
    have hok : (parseIntJS ans == some data.answer) = false := by
      rw [beq_eq_false_iff_ne]
      exact hne
    rw [hok] at hred
    simp only [Bool.false_eq_true, if_false] at hred
    rw [hred]
    exact ⟨rfl, rfl, rfl, by rw [mapGet_mapSet_self]⟩
  · intro hgt
    rw [if_pos hgt] at hred
    rw [hred]
    have hdel : mapGet (mapDelete store id) id = none :=
      mapGet_mapDelete_self store id
    refine ⟨rfl, rfl, hdel, ?_⟩
    simp only [validateCaptcha]
    rw [if_neg hid, if_neg hnull, hlen]
    simp only [Bool.false_eq_true, if_false, hdel]

/-- C4 (witness): the theorem applied to a fresh challenge (wrong answer 5,
count 0 → 1, challenge kept) and to an attempt-exhausted challenge (the 4th
attempt with `maxAttempts = 3` reports "Too many attempts" and deletes). -/
theorem validate_attempt_limit_witness :
    ((validateCaptcha [("c", freshData)] 0 (some "c")
        (some (.vNum 5))).1.reason = some "Wrong answer" ∧
      mapGet (validateCaptcha [("c", freshData)] 0 (some "c")
          (some (.vNum 5))).2 "c" =
        some { freshData with
                 attempts := 1
                 lastValidation := some ⟨0, false, .vNum 5, freshData.answer⟩ }) ∧
    ((validateCaptcha [("c", exhaustedData)] 0 (some "c")
        (some (.vNum 5))).1.reason = some "Too many attempts" ∧
      mapGet (validateCaptcha [("c", exhaustedData)] 0 (some "c")
          (some (.vNum 5))).2 "c" = none) := by
  constructor
  · have h := (validate_attempt_limit [("c", freshData)] 0 0 "c" freshData
      (.vNum 5) (by decide) (by decide) (by decide) (by decide)
      (by decide)).1 (by decide) (by decide)
    exact ⟨h.2.1, h.2.2.2⟩
  · have h := (validate_attempt_limit [("c", exhaustedData)] 0 0 "c"
      exhaustedData (.vNum 5) (by decide) (by decide) (by decide) (by decide)
      (by decide)).2 (by decide)
    exact ⟨h.2.1, h.2.2.1⟩

/-- C6 (counterexample): only string submissions are length-checked.  The
numeric submission 12345678901 serializes to 11 characters (over the
10-character maximum), yet the call is not rejected as an input-shape error:
it is scored as a wrong answer and increments the attempt count. -/
theorem validate_input_shape_claim_false :
    (toString (12345678901 : Int)).length > config.security.maxAnswerLength ∧
    answerTooLong (.vNum 12345678901) = false ∧
    (validateCaptcha [("c", freshData)] 0 (some "c")
        (some (.vNum 12345678901))).1.reason = some "Wrong answer" ∧
    (validateCaptcha [("c", freshData)] 0 (some "c")
        (some (.vNum 12345678901))).1.attempts = some 1 ∧
    mapGet (validateCaptcha [("c", freshData)] 0 (some "c")
        (some (.vNum 12345678901))).2 "c" =
      some { freshData with
               attempts := 1
               lastValidation := some ⟨0, false, .vNum 12345678901, 7⟩ } := by
  refine ⟨by decide, rfl, rfl, rfl, by decide⟩

/-- C6 (amended): a validation call whose id is absent (or empty, which the
truthiness test treats as absent), whose submitted value is absent or `null`,
or whose submitted value is a *string* longer than 10 characters, is rejected
synchronously with an input-shape reason, leaves the store unchanged, and
increments no attempt count; numeric values are not length-checked. -/
theorem validate_input_shape (store : CaptchaStore) (now : Int)
    (captchaId : Option String) (answer : Option JsValue)
    (h : captchaId = none ∨ captchaId = some "" ∨ answer = none ∨
         answer = some JsValue.vNull ∨
         (∃ s, answer = some (JsValue.vStr s) ∧
            s.length > config.security.maxAnswerLength)) :
    (validateCaptcha store now captchaId answer).2 = store ∧
    (validateCaptcha store now captchaId answer).1.valid = false ∧
    ((validateCaptcha store now captchaId answer).1.reason =
        some "Missing captchaId or answer" ∨
     (validateCaptcha store now captchaId answer).1.reason =
        some "Answer too long") := by
  rcases h with h | h | h | h | ⟨s0, hs, hlen⟩
  · subst h
    exact ⟨rfl, rfl, Or.inl rfl⟩
  · subst h
    cases answer with
    | none => exact ⟨rfl, rfl, Or.inl rfl⟩
    | some a =>
        refine ⟨?_, ?_, Or.inl ?_⟩ <;> simp [validateCaptcha]
  · subst h
    cases captchaId with
    | none => exact ⟨rfl, rfl, Or.inl rfl⟩
    | some cid => exact ⟨rfl, rfl, Or.inl rfl⟩
  · subst h
    cases captchaId with
    | none => exact ⟨rfl, rfl, Or.inl rfl⟩
    | some cid =>
        by_cases hc : cid = ""
        · subst hc
          exact ⟨rfl, rfl, Or.inl rfl⟩
        · refine ⟨?_, ?_, Or.inl ?_⟩ <;> simp [validateCaptcha, hc]
  · subst hs
    have htl : answerTooLong (JsValue.vStr s0) = true := by
      simp only [answerTooLong]
      exact decide_eq_true hlen
    cases captchaId with
    | none => exact ⟨rfl, rfl, Or.inl rfl⟩
    | some cid =>
        by_cases hc : cid = ""
        · subst hc
          exact ⟨rfl, rfl, Or.inl rfl⟩
        · refine ⟨?_, ?_, Or.inr ?_⟩ <;> simp [validateCaptcha, hc, htl]

/-- C6 (witness): the amended theorem applied to an 11-character string
submission against a one-entry store: rejected with "Answer too long", store
unchanged. -/
theorem validate_input_shape_witness :
    (validateCaptcha [("c", freshData)] 0 (some "c")
        (some (.vStr "12345678901"))).2 = [("c", freshData)] ∧
    (validateCaptcha [("c", freshData)] 0 (some "c")
        (some (.vStr "12345678901"))).1.valid = false ∧
    ((validateCaptcha [("c", freshData)] 0 (some "c")
        (some (.vStr "12345678901"))).1.reason =
        some "Missing captchaId or answer" ∨
     (validateCaptcha [("c", freshData)] 0 (some "c")
        (some (.vStr "12345678901"))).1.reason = some "Answer too long") :=
  validate_input_shape [("c", freshData)] 0 (some "c")
    (some (.vStr "12345678901"))
    (Or.inr (Or.inr (Or.inr (Or.inr ⟨"12345678901", rfl, by decide⟩))))

/-- C5: a rate-limiter check prunes timestamps outside the window first; if
the retained count has reached the configured maximum, the request is rejected
with the pruned list stored unchanged (no new timestamp) and a positive
retry-after derived from the oldest retained timestamp plus the window length;
otherwise the current time is appended and the request is allowed — so, from
an empty window, exactly `max` same-window requests succeed and the
`max + 1`-th is rejected. -/
theorem advancedRateLimit_spec (cfg : LimitConfig) (reqs : List Int)
    (now : Int) (hmax : 0 < cfg.maxReq) (hwin : 0 < cfg.windowMs) :
    ((pruneWindow cfg reqs now).length ≥ cfg.maxReq →
      (advancedRateLimitCheck cfg reqs now).1 = false ∧
      (advancedRateLimitCheck cfg reqs now).2.1 = pruneWindow cfg reqs now ∧
      ∃ retry, (advancedRateLimitCheck cfg reqs now).2.2 = some retry ∧
        0 < retry) ∧
    ((pruneWindow cfg reqs now).length < cfg.maxReq →
      (advancedRateLimitCheck cfg reqs now).1 = true ∧
      (advancedRateLimitCheck cfg reqs now).2.1 =
        pruneWindow cfg reqs now ++ [now] ∧
      (advancedRateLimitCheck cfg reqs now).2.2 = none) ∧
    (runChecks cfg [] (List.replicate (cfg.maxReq + 1) now)).1 =
      List.replicate cfg.maxReq true ++ [false] := by
  refine ⟨?_, ?_, ?_⟩
  · intro hge
    have hres : advancedRateLimitCheck cfg reqs now =
        (false, pruneWindow cfg reqs now,
          some (ceilDiv1000
            ((pruneWindow cfg reqs now).headD 0 + cfg.windowMs - now))) := by
      simp only [advancedRateLimitCheck]
      rw [if_pos hge]
    rw [hres]
    refine ⟨rfl, rfl,
      ceilDiv1000 ((pruneWindow cfg reqs now).headD 0 + cfg.windowMs - now),
      rfl, ?_⟩
    have hne : pruneWindow cfg reqs now ≠ [] := by
      intro h0
      rw [h0] at hge
      simp at hge
      omega
    cases hp : pruneWindow cfg reqs now with
    | nil => exact absurd hp hne
    | cons a t =>
        have hmem : a ∈ pruneWindow cfg reqs now := by
          rw [hp]
          exact List.mem_cons_self _ _
        have ha := mem_pruneWindow hmem
        simp only [List.headD_cons]
        exact ceilDiv1000_pos (by omega)
  · intro hlt
    have hres : advancedRateLimitCheck cfg reqs now =
        (true, pruneWindow cfg reqs now ++ [now], none) := by
      simp only [advancedRateLimitCheck]
      rw [if_neg (by omega)]
    rw [hres]
    exact ⟨rfl, rfl, rfl⟩
  · have h := runChecks_replicate cfg hwin now cfg.maxReq 0 (by omega)
    simpa using h

/-- C5 (witness): the theorem applied to the generation-endpoint limit
configuration (window 900000 ms, max 100) on an empty window at time 0: the
check is allowed and records the timestamp. -/
theorem advancedRateLimit_spec_witness :
    (advancedRateLimitCheck config.rateLimit.captchaGeneration [] 0).1 = true ∧
    (advancedRateLimitCheck config.rateLimit.captchaGeneration [] 0).2.1
        = [0] ∧
    (advancedRateLimitCheck config.rateLimit.captchaGeneration [] 0).2.2
        = none := by
  have h := (advancedRateLimit_spec config.rateLimit.captchaGeneration [] 0
      (by decide) (by decide)).2.1 (by decide)
  exact ⟨h.1, h.2.1, h.2.2⟩

/-- C7: every store state reachable from startup through create / validate /
discard / sweep operations keeps at most one challenge per id (pairwise
distinct keys) and every surviving entry's attempt count at most
`maxAttempts`. -/
theorem reachableStore_inv (s : CaptchaStore) (h : ReachableStore s) :
    StoreInv s := by
  induction h with
  | empty =>
      exact ⟨List.Pairwise.nil, fun p hp => absurd hp (List.not_mem_nil p)⟩
  | create s id answer now difficulty qtype context hs ih =>
      exact storeInv_create ih id answer now difficulty qtype context
  | validate s now captchaId answer hs ih =>
      exact storeInv_validate ih now captchaId answer
  | discard s pid hs ih => exact storeInv_discard ih pid
  | sweep s now hs ih => exact storeInv_sweep ih now

/-- C7 (witness): the invariant holds of the concrete reachable state obtained
by one creation on the empty store. -/
theorem reachableStore_inv_witness :
    StoreInv (createChallenge [] "c" 7 0 "easy" (some "addition") ctxW) :=
  reachableStore_inv _
    (ReachableStore.create [] "c" 7 0 "easy" (some "addition") ctxW
      ReachableStore.empty)
